import Mathlib

/-!
Shallow embedding of the queryFy backend core (routes/query.js batch and
single-query handlers, and services/geminiService.js) together with proofs
of the specification claims about it.

External host behavior (the Gemini SDK call and the builtin JSON.parse) is
modelled by oracle parameters: a provider oracle yielding the outcome and
duration of each attempted model call, and a decode oracle giving the result
of JSON.parse on the cleaned response text (none = JSON.parse threw).
Everything else is translated from the JavaScript source.
-/

namespace QueryFy

/-- JavaScript values produced by JSON.parse, with numbers as rationals. -/
inductive JVal : Type where
  | jnull : JVal
  | jbool : Bool → JVal
  | jnum : ℚ → JVal
  | jstr : String → JVal
  | jarr : List JVal → JVal
  | jobj : List (String × JVal) → JVal

/-- JavaScript truthiness of a JSON value (null, false, 0, and the empty
string are falsy; objects and arrays are always truthy). -/
def jTruthy : JVal → Bool
  | .jnull => false
  | .jbool b => b
  | .jnum q => if q = 0 then false else true
  | .jstr s => if s = "" then false else true
  | .jarr _ => true
  | .jobj _ => true

/-- Property lookup on a decoded JSON object; with duplicate keys the last
occurrence wins, as in JSON.parse. -/
def jLookup (fs : List (String × JVal)) (k : String) : Option JVal :=
  List.lookup k fs.reverse

/-- JavaScript `x || dflt` where `x` is a possibly absent (undefined)
object property: the default is used when the property is missing or falsy. -/
def jOr (v : Option JVal) (dflt : JVal) : JVal :=
  match v with
  | some x => if jTruthy x then x else dflt
  | none => dflt

/-- JavaScript `x !== undefined ? x : dflt`: only a missing property is
replaced; present falsy values (false, 0, null) are kept. -/
def jDefault (v : Option JVal) (dflt : JVal) : JVal :=
  match v with
  | some x => x
  | none => dflt

/-- If the first list is a prefix of the second, return the remainder. -/
def dropPref : List Char → List Char → Option (List Char)
  | [], cs => some cs
  | _ :: _, [] => none
  | p :: ps, c :: cs => if p = c then dropPref ps cs else none

/-- Whether the first list is a prefix of the second. -/
def listHasPref (p cs : List Char) : Bool :=
  (dropPref p cs).isSome

/-- Whether `p` occurs as a contiguous sublist. -/
def listIncludes (p : List Char) : List Char → Bool
  | [] => p.isEmpty
  | c :: cs => listHasPref p (c :: cs) || listIncludes p cs

/-- JavaScript `s.includes(pat)`. -/
def strIncludes (s pat : String) : Bool :=
  listIncludes pat.data s.data

/-- The backquote character (code 96), written via its code point. -/
def bq : Char := Char.ofNat 96

/-- Fence markers removed by the regex replace in geminiService.js
(first alternative of the pattern, with and without the optional newline). -/
def fenceJsonNl : List Char := [bq, bq, bq, 'j', 's', 'o', 'n', '\n']

/-- First alternative without the trailing newline. -/
def fenceJson : List Char := [bq, bq, bq, 'j', 's', 'o', 'n']

/-- Second alternative with the optional leading newline. -/
def nlFence : List Char := ['\n', bq, bq, bq]

/-- Second alternative without the leading newline. -/
def fencePlain : List Char := [bq, bq, bq]

/-- Global regex replace of the code-fence markers: scan left to right,
at each position try the alternatives in pattern order (greedy optional
newline), remove a match and continue after it, else keep one character.
Fuel bounds the recursion; the entry point passes the list length, which
suffices since every step consumes at least one character. -/
def stripFencesAux : Nat → List Char → List Char
  | 0, cs => cs
  | fuel + 1, cs =>
    match cs with
    | [] => []
    | c :: rest =>
      match dropPref fenceJsonNl cs with
      | some r => stripFencesAux fuel r
      | none =>
        match dropPref fenceJson cs with
        | some r => stripFencesAux fuel r
        | none =>
          match dropPref nlFence cs with
          | some r => stripFencesAux fuel r
          | none =>
            match dropPref fencePlain cs with
            | some r => stripFencesAux fuel r
            | none => c :: stripFencesAux fuel rest

/-- Strip whitespace from both ends of a character list (JavaScript
String.prototype.trim). -/
def trimChars (cs : List Char) : List Char :=
  ((cs.dropWhile Char.isWhitespace).reverse.dropWhile Char.isWhitespace).reverse

/-- JavaScript s.trim(). -/
def jsTrim (s : String) : String :=
  String.mk (trimChars s.data)

/-- JavaScript s.substring(0, n). -/
def jsTake (s : String) (n : Nat) : String :=
  String.mk (s.data.take n)

/-- Model of the response cleanup in geminiService.js: remove the code-fence
markers globally, then trim surrounding whitespace. -/
def cleanResponseText (s : String) : String :=
  jsTrim (String.mk (stripFencesAux s.data.length s.data))

/-- Rough token estimation from geminiService.js: ceil(length / 4). -/
def estimateTokens (text : String) : Nat :=
  (text.length + 3) / 4

/-- The prompt built by processQueryWithGemini: document text truncated to
2000 characters with an ellipsis marker when truncated, then the question
and the JSON-format instruction. -/
def buildPrompt (documentText userQuery : String) : String :=
  "Document: " ++ jsTake documentText 2000 ++
    (if 2000 < documentText.length then "..." else "") ++
    "\n\nQuestion: " ++ userQuery ++
    "\n\nAnswer this question based on the document content. Respond in JSON format:\n\x7b\"answer\": \"your answer\", \"canAnswer\": true/false, \"confidence\": 0.0-1.0, \"reasoning\": \"brief explanation\"\x7d"

/-- The four answer fields of the parsed response after the
ensure-required-fields normalization, projected from the returned object.
A field is `none` when it is undefined on the returned value (which happens
when JSON.parse yields a primitive, whose property writes are silently
dropped in sloppy mode and which spreads without the four names). -/
structure AnswerFields : Type where
  answer : Option JVal
  canAnswer : Option JVal
  confidence : Option JVal
  reasoning : Option JVal

/-- Lines 171-175 of geminiService.js applied to a successfully decoded
value: property reads and conditional rewrites on the decoded result.
Reading a property of null throws a TypeError (an `Except.error` here);
arrays accept the four property writes like objects; other primitives
drop them. -/
def normalizeParsed : JVal → String → Except String AnswerFields
  | .jnull, _ =>
      .error "Cannot read properties of null (reading \x27answer\x27)"
  | .jobj fs, responseText =>
      .ok { answer := some (jOr (jLookup fs "answer") (.jstr responseText))
            canAnswer := some (jDefault (jLookup fs "canAnswer") (.jbool true))
            confidence := some (jOr (jLookup fs "confidence") (.jnum (mkRat 7 10)))
            reasoning := some (jOr (jLookup fs "reasoning") (.jstr "Analysis completed")) }
  | .jarr _, responseText =>
      .ok { answer := some (.jstr responseText)
            canAnswer := some (.jbool true)
            confidence := some (.jnum (mkRat 7 10))
            reasoning := some (.jstr "Analysis completed") }
  | _, _ =>
      .ok { answer := none, canAnswer := none, confidence := none, reasoning := none }

/-- Lines 154-175 of geminiService.js: attempt JSON decoding of the cleaned
text (the decode outcome is the input here); on decode failure substitute
the fallback object, then run the field normalization. -/
def parseStage (decoded : Option JVal) (responseText : String) : Except String AnswerFields :=
  match decoded with
  | some v => normalizeParsed v responseText
  | none =>
      normalizeParsed
        (.jobj [("answer", .jstr responseText),
                ("canAnswer", .jbool true),
                ("confidence", .jnum (mkRat 7 10)),
                ("reasoning", .jstr "Response generated but not in expected JSON format")])
        responseText

/-- One attempted call to the generative provider: its outcome (raw response
text, or the thrown error message) and its wall-clock duration in
milliseconds. The provider oracle maps the attempt index to the attempt. -/
structure ProviderAttempt : Type where
  outcome : Except String String
  duration : Nat

/-- Result of the retry while-loop: the obtained response text or the error
escaping the loop, the number of provider calls made, the list of backoff
waits performed (milliseconds), and the clock after the loop. -/
structure LoopRes : Type where
  res : Except String String
  attempts : Nat
  sleeps : List Nat
  time : Int

/-- Lines 127-150 of geminiService.js: the retry while-loop. `retries`
starts at 3; an attempt whose error message includes "overloaded" is retried
after a fixed 2000 ms wait while more than one retry remains; any other
error, or an overloaded error on the last attempt, escapes the loop. The
fuel-0 case corresponds to the loop exiting with responseText undefined,
which is unreachable from the entry value 3. -/
def retryLoop (provider : Nat → ProviderAttempt) : Nat → Nat → Int → LoopRes
  | _, 0, t => ⟨.error "responseText is not defined", 0, [], t⟩
  | idx, r + 1, t =>
    let a := provider idx
    let t1 := t + (a.duration : Int)
    match a.outcome with
    | .ok txt => ⟨.ok txt, 1, [], t1⟩
    | .error msg =>
      if strIncludes msg "overloaded" = true ∧ 1 < r + 1 then
        let rest := retryLoop provider (idx + 1) r (t1 + 2000)
        ⟨rest.res, rest.attempts + 1, 2000 :: rest.sleeps, rest.time⟩
      else ⟨.error msg, 1, [], t1⟩

/-- The object returned by processQueryWithGemini, projected onto the four
answer fields (see AnswerFields) plus the metadata it spreads in. -/
structure GeminiResult : Type where
  answer : Option JVal
  canAnswer : Option JVal
  confidence : Option JVal
  reasoning : Option JVal
  processingTime : Int
  tokensUsed : Nat

/-- A run of processQueryWithGemini: the returned object or the thrown
error message, how many provider calls were made, the backoff waits, and
the clock when the function returns. -/
structure GeminiRun : Type where
  result : Except String GeminiResult
  attemptsMade : Nat
  sleeps : List Nat
  endTime : Int

/-- The synthesized answer text of the degraded overload fallback
(line 197 of geminiService.js); it interpolates only the user query. -/
def degradedAnswerText (userQuery : String) : String :=
  "I apologize, but the AI service is currently overloaded. However, I can see that you\x27re asking: \"" ++
    userQuery ++
    "\". Please try again in a few moments, or try rephrasing your question. The document appears to contain relevant information that I could analyze once the service is available."

/-- Lines 183-207 of geminiService.js: the outer catch. Classifies the
thrown message by substring in source order; the overload case returns the
degraded fallback object whose reported processing time is the literal
expression now - (now - 1000); every other case rethrows a mapped message. -/
def geminiCatch (msg userQuery : String) (now : Int) : Except String GeminiResult :=
  if strIncludes msg "API_KEY" then
    .error "Invalid Gemini API key. Please check your configuration."
  else if strIncludes msg "quota" then
    .error "Gemini API quota exceeded. Please try again later."
  else if strIncludes msg "SAFETY" then
    .error "Content was blocked by Gemini safety filters. Please try a different query."
  else if strIncludes msg "overloaded" then
    .ok { answer := some (.jstr (degradedAnswerText userQuery))
          canAnswer := some (.jbool false)
          confidence := some (.jnum 0)
          reasoning := some (.jstr "Gemini API is temporarily overloaded")
          processingTime := now - (now - 1000)
          tokensUsed := 0 }
  else
    .error ("Gemini processing failed: " ++ msg)

/-- The message a non-overloaded thrown error is propagated with (the
error branches of the outer catch, in source order). -/
def fatalMessage (msg : String) : String :=
  if strIncludes msg "API_KEY" then
    "Invalid Gemini API key. Please check your configuration."
  else if strIncludes msg "quota" then
    "Gemini API quota exceeded. Please try again later."
  else if strIncludes msg "SAFETY" then
    "Content was blocked by Gemini safety filters. Please try a different query."
  else "Gemini processing failed: " ++ msg

/-- Whether a thrown message would be classified as transient overload by
the outer catch (reaching the degraded branch): it must miss the three
earlier substring tests and include "overloaded". -/
def classifiedOverloaded (msg : String) : Bool :=
  !strIncludes msg "API_KEY" && (!strIncludes msg "quota" &&
    (!strIncludes msg "SAFETY" && strIncludes msg "overloaded"))

/-- processQueryWithGemini (geminiService.js lines 110-208). The provider
oracle gives each attempted model call; the decode oracle gives the
JSON.parse outcome on the cleaned response text (none = parse threw). The
clock starts at `t0`; the success path reports the elapsed time of the
retry loop, the degraded path the constant expression in the source. -/
def processQueryWithGemini (documentText userQuery : String)
    (provider : Nat → ProviderAttempt) (decodeOf : String → Option JVal)
    (t0 : Int) : GeminiRun :=
  let lr := retryLoop provider 0 3 t0
  match lr.res with
  | .ok responseText =>
    match parseStage (decodeOf (cleanResponseText responseText)) responseText with
    | .ok fs =>
      { result := .ok { answer := fs.answer
                        canAnswer := fs.canAnswer
                        confidence := fs.confidence
                        reasoning := fs.reasoning
                        processingTime := lr.time - t0
                        tokensUsed := estimateTokens (buildPrompt documentText userQuery ++ responseText) }
        attemptsMade := lr.attempts
        sleeps := lr.sleeps
        endTime := lr.time }
    | .error m =>
      { result := geminiCatch m userQuery lr.time
        attemptsMade := lr.attempts
        sleeps := lr.sleeps
        endTime := lr.time }
  | .error msg =>
    { result := geminiCatch msg userQuery lr.time
      attemptsMade := lr.attempts
      sleeps := lr.sleeps
      endTime := lr.time }

/-- The document fields the query routes read. -/
structure Document : Type where
  originalName : String
  extractedText : String

/-- Error responses of the single-query route (routes/query.js POST /),
by source order of the early returns and the catch classification. -/
inductive QueryError : Type where
  | missingFields : QueryError
  | invalidQuery : QueryError
  | documentNotFound : QueryError
  | noTextContent : QueryError
  | serviceUnavailable : String → QueryError
  | serverError : String → QueryError

/-- The success payload of the single-query route, projected onto the
fields the claims are about. -/
structure QuerySuccess : Type where
  answer : Option JVal
  canAnswer : Option JVal
  confidence : Option JVal
  reasoning : Option JVal
  processingTime : Int
  tokensUsed : Nat

/-- A run of the single-query handler: its HTTP-level outcome, the number
of provider calls it caused, and the clock when it responds. -/
structure QueryRun : Type where
  response : Except QueryError QuerySuccess
  providerCalls : Nat
  endTime : Int

/-- POST /api/query (routes/query.js lines 45-132). Body fields are
Options (none = absent); absent or empty-string fields are falsy. The
handler validates, resolves the document, runs processQueryWithGemini and
classifies a thrown error as 503 when its message mentions Gemini. The
database save is external and modelled as succeeding. -/
def handleQuery (findById : String → Option Document)
    (documentId? query? : Option String) (provider : Nat → ProviderAttempt)
    (decodeOf : String → Option JVal) (t0 : Int) : QueryRun :=
  match documentId?, query? with
  | some documentId, some query =>
    if documentId = "" ∨ query = "" then ⟨.error .missingFields, 0, t0⟩
    else if (jsTrim query).length < 3 then ⟨.error .invalidQuery, 0, t0⟩
    else
      match findById documentId with
      | none => ⟨.error .documentNotFound, 0, t0⟩
      | some document =>
        if document.extractedText = "" ∨ (jsTrim document.extractedText).length = 0 then
          ⟨.error .noTextContent, 0, t0⟩
        else
          let run := processQueryWithGemini document.extractedText query provider decodeOf t0
          match run.result with
          | .ok ai =>
            ⟨.ok { answer := ai.answer
                   canAnswer := ai.canAnswer
                   confidence := ai.confidence
                   reasoning := ai.reasoning
                   processingTime := run.endTime - t0
                   tokensUsed := ai.tokensUsed },
             run.attemptsMade, run.endTime⟩
          | .error e =>
            if strIncludes e "Gemini" then
              ⟨.error (.serviceUnavailable e), run.attemptsMade, run.endTime⟩
            else ⟨.error (.serverError e), run.attemptsMade, run.endTime⟩
  | _, _ => ⟨.error .missingFields, 0, t0⟩

/-- One entry of the batch results list (routes/query.js lines 183-196):
either a success entry with the answer and confidence, or a failure entry
with the caught error message. -/
structure BatchItem : Type where
  query : String
  answer : Option JVal
  confidence : Option JVal
  error : Option String
  success : Bool

/-- Error responses of the batch route, by source order of the early
returns. -/
inductive BatchError : Type where
  | invalidInput : BatchError
  | invalidQueryCount : BatchError
  | documentNotFound : BatchError

/-- Result of the per-question loop: items in input order, total provider
calls, and the clock after the loop. -/
structure BatchLoopRes : Type where
  items : List BatchItem
  calls : Nat
  time : Int

/-- Lines 168-198 of routes/query.js: process each query in order; a
throw from processQueryWithGemini is caught and recorded as a failure
entry, and the loop continues. The provider oracle is indexed by the
question position (each question gets its own attempt stream). -/
def batchLoop (doc : Document) (provider : Nat → Nat → ProviderAttempt)
    (decodeOf : String → Option JVal) : List String → Nat → Int → BatchLoopRes
  | [], _, t => ⟨[], 0, t⟩
  | q :: qs, i, t =>
    let run := processQueryWithGemini doc.extractedText q (provider i) decodeOf t
    let item : BatchItem :=
      match run.result with
      | .ok r => ⟨q, r.answer, r.confidence, none, true⟩
      | .error m => ⟨q, none, none, some m, false⟩
    let rest := batchLoop doc provider decodeOf qs (i + 1) run.endTime
    ⟨item :: rest.items, run.attemptsMade + rest.calls, rest.time⟩

/-- A run of the batch handler. -/
structure BatchRun : Type where
  response : Except BatchError (List BatchItem)
  providerCalls : Nat
  endTime : Int

/-- POST /api/query/batch (routes/query.js lines 138-213). Validates the
body shape (a missing field or missing array, or an empty-string document
id, is falsy), then the 1..10 batch size, then resolves the document —
note the handler performs no check on the document extracted text — and
runs the per-question loop. -/
def handleBatch (findById : String → Option Document)
    (documentId? : Option String) (queries? : Option (List String))
    (provider : Nat → Nat → ProviderAttempt)
    (decodeOf : String → Option JVal) (t0 : Int) : BatchRun :=
  match documentId?, queries? with
  | some documentId, some queries =>
    if documentId = "" then ⟨.error .invalidInput, 0, t0⟩
    else if queries.length = 0 ∨ 10 < queries.length then
      ⟨.error .invalidQueryCount, 0, t0⟩
    else
      match findById documentId with
      | none => ⟨.error .documentNotFound, 0, t0⟩
      | some document =>
        let lr := batchLoop document provider decodeOf queries 0 t0
        ⟨.ok lr.items, lr.calls, lr.time⟩
  | _, _ => ⟨.error .invalidInput, 0, t0⟩

/-- The hardcoded fallback questions of generateRecommendedQuestions. -/
def defaultQuestions : List String :=
  ["What is the main topic of this document?",
   "Can you summarize the key points?",
   "What are the most important findings?"]

/-- The fallback questions as the JavaScript array value. -/
def defaultQuestionsJ : JVal :=
  .jarr (defaultQuestions.map .jstr)

/-- The prompt built by generateRecommendedQuestions (first 1000
characters of the document). -/
def recommendPrompt (documentText : String) : String :=
  "Based on this document excerpt: \"" ++ jsTake documentText 1000 ++
    "\"\n\nGenerate 3 relevant questions that would help someone understand this document better. Respond in JSON format:\n\x7b\"questions\": [\"question 1\", \"question 2\", \"question 3\"]\x7d"

/-- generateRecommendedQuestions (geminiService.js lines 262-304). One
provider call (no retry); every failure path — provider error, decode
failure, a decoded null (whose property read throws inside the inner try),
a decoded primitive or array (whose questions property is undefined), or a
falsy questions field — returns the hardcoded defaults; a truthy questions
field is returned as-is. -/
def generateRecommendedQuestions (documentText : String)
    (provider : String → Except String String)
    (decodeOf : String → Option JVal) : JVal :=
  match provider (recommendPrompt documentText) with
  | .error _ => defaultQuestionsJ
  | .ok responseText =>
    match decodeOf (cleanResponseText responseText) with
    | some (.jobj fs) => jOr (jLookup fs "questions") defaultQuestionsJ
    | some _ => defaultQuestionsJ
    | none => defaultQuestionsJ

/-! ## Helper lemmas -/

theorem classifiedOverloaded_spec {m : String} (h : classifiedOverloaded m = true) :
    strIncludes m "API_KEY" = false ∧ strIncludes m "quota" = false ∧
    strIncludes m "SAFETY" = false ∧ strIncludes m "overloaded" = true := by
  simp only [classifiedOverloaded, Bool.and_eq_true, Bool.not_eq_true'] at h
  exact ⟨h.1, h.2.1, h.2.2.1, h.2.2.2⟩

theorem geminiCatch_not_overloaded {msg : String} (userQuery : String) (now : Int)
    (h : strIncludes msg "overloaded" = false) :
    geminiCatch msg userQuery now = Except.error (fatalMessage msg) := by
  by_cases h1 : strIncludes msg "API_KEY" = true
  · simp [geminiCatch, fatalMessage, h1]
  · by_cases h2 : strIncludes msg "quota" = true
    · simp [geminiCatch, fatalMessage, h1, h2]
    · by_cases h3 : strIncludes msg "SAFETY" = true
      · simp [geminiCatch, fatalMessage, h1, h2, h3]
      · simp [geminiCatch, fatalMessage, h1, h2, h3, h]

theorem retryLoop_first_ok {p : Nat → ProviderAttempt} {idx r : Nat} {t : Int} {s : String}
    (h : (p idx).outcome = Except.ok s) :
    retryLoop p idx (r + 1) t = ⟨Except.ok s, 1, [], t + ((p idx).duration : Int)⟩ := by
  simp [retryLoop, h]

theorem retryLoop_first_fatal {p : Nat → ProviderAttempt} {idx r : Nat} {t : Int} {m : String}
    (h : (p idx).outcome = Except.error m) (hov : strIncludes m "overloaded" = false) :
    retryLoop p idx (r + 1) t = ⟨Except.error m, 1, [], t + ((p idx).duration : Int)⟩ := by
  simp [retryLoop, h, hov]

theorem retryLoop_three_overloaded {p : Nat → ProviderAttempt} {msgs : Nat → String}
    (h : ∀ i, i < 3 → (p i).outcome = Except.error (msgs i))
    (hov : ∀ i, i < 3 → strIncludes (msgs i) "overloaded" = true) (t : Int) :
    retryLoop p 0 3 t = ⟨Except.error (msgs 2), 3, [2000, 2000],
      t + ((p 0).duration : Int) + 2000 + ((p 1).duration : Int) + 2000 + ((p 2).duration : Int)⟩ := by
  have h0 := h 0 (by omega); have h1 := h 1 (by omega); have h2 := h 2 (by omega)
  have v0 := hov 0 (by omega); have v1 := hov 1 (by omega); have v2 := hov 2 (by omega)
  simp [retryLoop, h0, h1, h2, v0, v1, v2]

theorem run_fatal_first {d q : String} {p : Nat → ProviderAttempt}
    {f : String → Option JVal} {t : Int} {m : String}
    (h : (p 0).outcome = Except.error m) (hov : strIncludes m "overloaded" = false) :
    processQueryWithGemini d q p f t =
      ⟨Except.error (fatalMessage m), 1, [], t + ((p 0).duration : Int)⟩ := by
  have e := retryLoop_first_fatal (r := 2) (t := t) h hov
  simp [processQueryWithGemini, e, geminiCatch_not_overloaded q _ hov]

theorem run_first_ok {d q : String} {p : Nat → ProviderAttempt}
    {f : String → Option JVal} {t : Int} {s : String}
    (h : (p 0).outcome = Except.ok s) (hdec : f (cleanResponseText s) = none) :
    processQueryWithGemini d q p f t =
      ⟨Except.ok { answer := some (.jstr s)
                   canAnswer := some (.jbool true)
                   confidence := some (.jnum (mkRat 7 10))
                   reasoning := some (.jstr "Response generated but not in expected JSON format")
                   processingTime := ((p 0).duration : Int)
                   tokensUsed := estimateTokens (buildPrompt d q ++ s) },
       1, [], t + ((p 0).duration : Int)⟩ := by
  have e := retryLoop_first_ok (r := 2) (t := t) h
  simp [processQueryWithGemini, e, hdec, parseStage, normalizeParsed, jLookup, List.lookup,
    jOr, jDefault, jTruthy]

theorem run_first_ok_trace {d q : String} {p : Nat → ProviderAttempt}
    {f : String → Option JVal} {t : Int} {s : String}
    (h : (p 0).outcome = Except.ok s) :
    (processQueryWithGemini d q p f t).attemptsMade = 1 ∧
    (processQueryWithGemini d q p f t).sleeps = [] ∧
    (processQueryWithGemini d q p f t).endTime = t + ((p 0).duration : Int) := by
  have e := retryLoop_first_ok (r := 2) (t := t) h
  cases hp : parseStage (f (cleanResponseText s)) s <;>
    simp [processQueryWithGemini, e, hp]

theorem batchLoop_length (doc : Document) (provider : Nat → Nat → ProviderAttempt)
    (decodeOf : String → Option JVal) :
    ∀ (qs : List String) (i : Nat) (t : Int),
      (batchLoop doc provider decodeOf qs i t).items.length = qs.length := by
  intro qs
  induction qs with
  | nil => intro i t; rfl
  | cons q qs ih => intro i t; simp [batchLoop, ih]

theorem batchLoop_map (doc : Document) (provider : Nat → Nat → ProviderAttempt)
    (decodeOf : String → Option JVal) :
    ∀ (qs : List String) (i : Nat) (t : Int),
      (batchLoop doc provider decodeOf qs i t).items.map (fun it => it.query) = qs := by
  intro qs
  induction qs with
  | nil => intro i t; rfl
  | cons q qs ih =>
    intro i t
    simp only [batchLoop]
    cases hres : (processQueryWithGemini doc.extractedText q (provider i) decodeOf t).result <;>
      simp [hres, ih]

theorem batchLoop_calls_ok (doc : Document) (provider : Nat → Nat → ProviderAttempt)
    (decodeOf : String → Option JVal) (txts : Nat → String)
    (hok : ∀ j, ((provider j) 0).outcome = Except.ok (txts j)) :
    ∀ (qs : List String) (i : Nat) (t : Int),
      (batchLoop doc provider decodeOf qs i t).calls = qs.length := by
  intro qs
  induction qs with
  | nil => intro i t; rfl
  | cons q qs ih =>
    intro i t
    simp [batchLoop, (run_first_ok_trace (d := doc.extractedText) (q := q)
      (f := decodeOf) (t := t) (hok i)).1, ih]
    omega

theorem batchLoop_all_ok (doc : Document) (provider : Nat → Nat → ProviderAttempt)
    (decodeOf : String → Option JVal) (txts : Nat → String)
    (hok : ∀ j, ((provider j) 0).outcome = Except.ok (txts j))
    (hdec : ∀ r, decodeOf r = none) :
    ∀ (qs : List String) (i : Nat) (t : Int),
      ∀ it ∈ (batchLoop doc provider decodeOf qs i t).items,
        it.success = true ∧ it.error = none := by
  intro qs
  induction qs with
  | nil => intro i t it hit; simp [batchLoop] at hit
  | cons q qs ih =>
    intro i t it hit
    have e := run_first_ok (d := doc.extractedText) (q := q) (p := provider i)
      (f := decodeOf) (t := t) (s := txts i) (hok i) (hdec _)
    simp only [batchLoop, e] at hit
    simp at hit
    rcases hit with h | h
    · rw [h]; exact ⟨rfl, rfl⟩
    · exact ih (i + 1) _ it h

theorem batchLoop_get_fatal (doc : Document) (provider : Nat → Nat → ProviderAttempt)
    (decodeOf : String → Option JVal) :
    ∀ (qs : List String) (i : Nat) (t : Int) (k : Nat) (m : String),
      k < qs.length → ((provider (i + k)) 0).outcome = Except.error m →
      strIncludes m "overloaded" = false →
      ∃ it, (batchLoop doc provider decodeOf qs i t).items.get? k = some it ∧
        it.success = false ∧ it.error = some (fatalMessage m) := by
  intro qs
  induction qs with
  | nil => intro i t k m hk _ _; simp at hk
  | cons q qs ih =>
    intro i t k m hk herr hov
    cases k with
    | zero =>
      rw [Nat.add_zero] at herr
      have e := run_fatal_first (d := doc.extractedText) (q := q)
        (f := decodeOf) (t := t) herr hov
      refine ⟨⟨q, none, none, some (fatalMessage m), false⟩, ?_, rfl, rfl⟩
      simp [batchLoop, e]
    | succ k2 =>
      have hsh : i + (k2 + 1) = (i + 1) + k2 := by omega
      rw [hsh] at herr
      obtain ⟨it, hget, hsucc, herr2⟩ := ih (i + 1)
        (processQueryWithGemini doc.extractedText q (provider i) decodeOf t).endTime
        k2 m (by simpa using hk) herr hov
      refine ⟨it, ?_, hsucc, herr2⟩
      simp only [batchLoop]
      simpa using hget

/-! ## Claim theorems -/

/-- C1: for every valid batch of 1 to 10 questions against a resolvable
document, the batch handler returns one result per question in input order;
a per-question fatal provider failure is recorded as a failure entry
carrying the mapped error message while processing continues; batches of 0
or more than 10 questions are rejected with the invalid-count input error
before any provider call is made. -/
theorem C1_batch_order_cardinality_isolation
    (findById : String → Option Document) (docId : String) (doc : Document)
    (qs : List String) (provider : Nat → Nat → ProviderAttempt)
    (decodeOf : String → Option JVal) (t0 : Int)
    (hid : docId ≠ "") (hdoc : findById docId = some doc) :
    ((1 ≤ qs.length ∧ qs.length ≤ 10) →
      ∃ items,
        (handleBatch findById (some docId) (some qs) provider decodeOf t0).response
            = Except.ok items ∧
        items.length = qs.length ∧
        items.map (fun it => it.query) = qs ∧
        (∀ k m, k < qs.length → ((provider k) 0).outcome = Except.error m →
          strIncludes m "overloaded" = false →
          ∃ it, items.get? k = some it ∧ it.success = false ∧
            it.error = some (fatalMessage m))) ∧
    ((qs.length = 0 ∨ 10 < qs.length) →
      (handleBatch findById (some docId) (some qs) provider decodeOf t0).response
          = Except.error BatchError.invalidQueryCount ∧
      (handleBatch findById (some docId) (some qs) provider decodeOf t0).providerCalls = 0) := by
  constructor
  · rintro ⟨hlo, hhi⟩
    have hne : qs ≠ [] := by
      intro h
      rw [h] at hlo
      simp at hlo
    have h10 : ¬ 10 < qs.length := by omega
    refine ⟨(batchLoop doc provider decodeOf qs 0 t0).items, ?_, ?_, ?_, ?_⟩
    · simp [handleBatch, hid, hne, h10, hdoc]
    · exact batchLoop_length doc provider decodeOf qs 0 t0
    · exact batchLoop_map doc provider decodeOf qs 0 t0
    · intro k m hk herr hov
      exact batchLoop_get_fatal doc provider decodeOf qs 0 t0 k m hk
        (by simpa using herr) hov
  · intro hlen
    have hlen2 : qs = [] ∨ 10 < qs.length := by
      rcases hlen with h | h
      · exact Or.inl (List.length_eq_zero.mp h)
      · exact Or.inr h
    constructor <;> simp [handleBatch, hid, hlen2]

/-- Witness for C1 at a concrete two-question batch whose second question
hits a fatal quota error: two entries, in order, success then failure. -/
theorem C1_witness :
    ∃ items,
      (handleBatch (fun _ => some ⟨"notes.txt", "The sky is blue."⟩) (some "d1")
          (some ["What color is the sky?", "Who is the author?"])
          (fun i _ => if i = 0 then ⟨Except.ok "Blue", 3⟩
                      else ⟨Except.error "quota exceeded", 3⟩)
          (fun _ => none) 0).response = Except.ok items ∧
      items.length = 2 ∧
      items.map (fun it => it.query) = ["What color is the sky?", "Who is the author?"] ∧
      (∀ k m, k < 2 →
        (((fun i _ => if i = 0 then (⟨Except.ok "Blue", 3⟩ : ProviderAttempt)
                      else ⟨Except.error "quota exceeded", 3⟩) :
            Nat → Nat → ProviderAttempt) k 0).outcome = Except.error m →
        strIncludes m "overloaded" = false →
        ∃ it, items.get? k = some it ∧ it.success = false ∧
          it.error = some (fatalMessage m)) :=
  (C1_batch_order_cardinality_isolation
    (fun _ => some ⟨"notes.txt", "The sky is blue."⟩) "d1"
    ⟨"notes.txt", "The sky is blue."⟩
    ["What color is the sky?", "Who is the author?"]
    (fun i _ => if i = 0 then ⟨Except.ok "Blue", 3⟩
                else ⟨Except.error "quota exceeded", 3⟩)
    (fun _ => none) 0 (by decide) rfl).1 (by decide)

/-- C2: when every provider attempt fails with a transient-overload
message, processQueryWithGemini makes exactly 3 attempts with a fixed
2000 ms wait between retryable attempts and returns the degraded-success
object (canAnswer false, confidence 0, the synthesized answer text built
only from the user query) instead of an error. -/
theorem C2_overload_retry_exhaustion (documentText userQuery : String)
    (provider : Nat → ProviderAttempt) (decodeOf : String → Option JVal)
    (t0 : Int) (msgs : Nat → String)
    (herr : ∀ i, i < 3 → (provider i).outcome = Except.error (msgs i))
    (hov : ∀ i, i < 3 → classifiedOverloaded (msgs i) = true) :
    (processQueryWithGemini documentText userQuery provider decodeOf t0).attemptsMade = 3 ∧
    (processQueryWithGemini documentText userQuery provider decodeOf t0).sleeps = [2000, 2000] ∧
    (processQueryWithGemini documentText userQuery provider decodeOf t0).result =
      Except.ok { answer := some (.jstr (degradedAnswerText userQuery))
                  canAnswer := some (.jbool false)
                  confidence := some (.jnum 0)
                  reasoning := some (.jstr "Gemini API is temporarily overloaded")
                  processingTime := 1000
                  tokensUsed := 0 } := by
  have hov2 := fun i hi => (classifiedOverloaded_spec (hov i hi)).2.2.2
  have e := retryLoop_three_overloaded herr hov2 t0
  obtain ⟨c1, c2, c3, c4⟩ := classifiedOverloaded_spec (hov 2 (by omega))
  refine ⟨by simp [processQueryWithGemini, e], by simp [processQueryWithGemini, e], ?_⟩
  simp [processQueryWithGemini, e, geminiCatch, c1, c2, c3, c4]

/-- Witness for C2 with a concrete always-overloaded provider. -/
theorem C2_witness :
    (processQueryWithGemini "The sky is blue." "What color is the sky?"
        (fun _ => ⟨Except.error "503: the model is overloaded", 5⟩)
        (fun _ => none) 0).attemptsMade = 3 ∧
    (processQueryWithGemini "The sky is blue." "What color is the sky?"
        (fun _ => ⟨Except.error "503: the model is overloaded", 5⟩)
        (fun _ => none) 0).sleeps = [2000, 2000] ∧
    (processQueryWithGemini "The sky is blue." "What color is the sky?"
        (fun _ => ⟨Except.error "503: the model is overloaded", 5⟩)
        (fun _ => none) 0).result =
      Except.ok { answer := some (.jstr (degradedAnswerText "What color is the sky?"))
                  canAnswer := some (.jbool false)
                  confidence := some (.jnum 0)
                  reasoning := some (.jstr "Gemini API is temporarily overloaded")
                  processingTime := 1000
                  tokensUsed := 0 } := by
  have hcl : classifiedOverloaded "503: the model is overloaded" = true := by decide
  exact C2_overload_retry_exhaustion "The sky is blue." "What color is the sky?"
    (fun _ => ⟨Except.error "503: the model is overloaded", 5⟩) (fun _ => none) 0
    (fun _ => "503: the model is overloaded") (fun _ _ => rfl) (fun _ _ => hcl)

/-- C3 (failing-input evaluation): the response parsing is not total. When
the model output is the string "null", JSON.parse succeeds with null, the
parse-failure fallback is bypassed, and the subsequent property read on
null throws, so processQueryWithGemini propagates an error instead of
returning an Answer. -/
theorem C3_null_output_throws :
    (processQueryWithGemini "The sky is blue." "What is this?"
        (fun _ => ⟨Except.ok "null", 5⟩)
        (fun s => if s = "null" then some JVal.jnull else none) 0).result
      = Except.error
          "Gemini processing failed: Cannot read properties of null (reading \x27answer\x27)" := by
  rfl

/-- C4 (counterexample): a batch against a document whose extracted text is
empty still forwards its question to the provider (one provider call),
contradicting the claim that no query is ever executed against an
empty-text document by any operation. -/
theorem C4_counterexample :
    (jsTrim (Document.mk "empty.pdf" "").extractedText).length = 0 ∧
    (handleBatch (fun _ => some (Document.mk "empty.pdf" "")) (some "d1")
        (some ["What is this document about?"])
        (fun _ _ => ⟨Except.ok "not structured", 7⟩) (fun _ => none) 0).providerCalls = 1 :=
  ⟨rfl, rfl⟩

/-- C4 (amended): for a resolved document whose extracted text is empty or
whitespace-only, the single-query handler never calls the provider and,
when its inputs pass the earlier validations, fails with the no-text-content
error; the batch handler performs no such check and forwards every question
of a valid batch to the provider. -/
theorem C4_amended
    (findById : String → Option Document) (docId : String) (doc : Document)
    (q : String) (qs : List String) (provider1 : Nat → ProviderAttempt)
    (bprovider : Nat → Nat → ProviderAttempt) (btxts : Nat → String)
    (decodeOf : String → Option JVal) (t0 t1 : Int)
    (hdoc : findById docId = some doc)
    (hempty : (jsTrim doc.extractedText).length = 0) :
    (handleQuery findById (some docId) (some q) provider1 decodeOf t0).providerCalls = 0 ∧
    (docId ≠ "" → ¬ (jsTrim q).length < 3 →
      (handleQuery findById (some docId) (some q) provider1 decodeOf t0).response
        = Except.error QueryError.noTextContent) ∧
    (docId ≠ "" → 1 ≤ qs.length → qs.length ≤ 10 →
      (∀ j, ((bprovider j) 0).outcome = Except.ok (btxts j)) →
      (handleBatch findById (some docId) (some qs) bprovider decodeOf t1).providerCalls
        = qs.length) := by
  refine ⟨?_, ?_, ?_⟩
  · by_cases h1 : docId = "" ∨ q = ""
    · simp [handleQuery, h1]
    · by_cases h2 : (jsTrim q).length < 3
      · simp [handleQuery, h1, h2]
      · simp [handleQuery, h1, h2, hdoc, hempty]
  · intro hid hq
    have h1 : ¬ (docId = "" ∨ q = "") := by
      rintro (h | h)
      · exact hid h
      · rw [h] at hq
        exact hq (by decide)
    simp [handleQuery, h1, hq, hdoc, hempty]
  · intro hid hlo hhi hok
    have hne : qs ≠ [] := by
      intro h
      rw [h] at hlo
      simp at hlo
    have h10 : ¬ 10 < qs.length := by omega
    simp [handleBatch, hid, hne, h10, hdoc,
      batchLoop_calls_ok doc bprovider decodeOf btxts hok qs 0 t1]

/-- Witness for C4 (amended) at a concrete empty-text document. -/
theorem C4_witness :
    (handleQuery (fun _ => some ⟨"e.txt", ""⟩) (some "d1") (some "What is this?")
        (fun _ => ⟨Except.ok "x", 1⟩) (fun _ => none) 0).providerCalls = 0 ∧
    (handleQuery (fun _ => some ⟨"e.txt", ""⟩) (some "d1") (some "What is this?")
        (fun _ => ⟨Except.ok "x", 1⟩) (fun _ => none) 0).response
      = Except.error QueryError.noTextContent ∧
    (handleBatch (fun _ => some ⟨"e.txt", ""⟩) (some "d1") (some ["Summarize it."])
        (fun _ _ => ⟨Except.ok "y", 2⟩) (fun _ => none) 0).providerCalls = 1 := by
  have h := C4_amended (fun _ => some ⟨"e.txt", ""⟩) "d1" ⟨"e.txt", ""⟩
    "What is this?" ["Summarize it."] (fun _ => ⟨Except.ok "x", 1⟩)
    (fun _ _ => ⟨Except.ok "y", 2⟩) (fun _ => "y") (fun _ => none) 0 0 rfl (by decide)
  exact ⟨h.1, h.2.1 (by decide) (by decide),
    h.2.2 (by decide) (by decide) (by decide) (fun _ => rfl)⟩

/-- C5: a question whose trimmed length is below 3 makes the single-query
handler fail with one of the two invalid-input rejections (missing fields
for the empty string, invalid query otherwise) without any provider call. -/
theorem C5_short_query_rejected (findById : String → Option Document)
    (documentId? : Option String) (q : String) (provider : Nat → ProviderAttempt)
    (decodeOf : String → Option JVal) (t0 : Int)
    (hq : (jsTrim q).length < 3) :
    (handleQuery findById documentId? (some q) provider decodeOf t0).providerCalls = 0 ∧
    ∃ e, (handleQuery findById documentId? (some q) provider decodeOf t0).response
        = Except.error e ∧
      (e = QueryError.missingFields ∨ e = QueryError.invalidQuery) := by
  cases documentId? with
  | none => exact ⟨rfl, QueryError.missingFields, rfl, Or.inl rfl⟩
  | some docId =>
    by_cases h1 : docId = "" ∨ q = ""
    · refine ⟨?_, QueryError.missingFields, ?_, Or.inl rfl⟩ <;> simp [handleQuery, h1]
    · refine ⟨?_, QueryError.invalidQuery, ?_, Or.inr rfl⟩ <;> simp [handleQuery, h1, hq]

/-- Witness for C5 at the concrete two-character question "ab". -/
theorem C5_witness :
    (handleQuery (fun _ => some ⟨"n.txt", "text"⟩) (some "d1") (some "ab")
        (fun _ => ⟨Except.ok "x", 1⟩) (fun _ => none) 0).providerCalls = 0 ∧
    ∃ e, (handleQuery (fun _ => some ⟨"n.txt", "text"⟩) (some "d1") (some "ab")
        (fun _ => ⟨Except.ok "x", 1⟩) (fun _ => none) 0).response
        = Except.error e ∧
      (e = QueryError.missingFields ∨ e = QueryError.invalidQuery) :=
  C5_short_query_rejected (fun _ => some ⟨"n.txt", "text"⟩) (some "d1") "ab"
    (fun _ => ⟨Except.ok "x", 1⟩) (fun _ => none) 0 (by decide)

/-- C6 (counterexample): a fatal credentials failure is propagated after a
single attempt, but as the fixed remapped message that does not carry the
provider-supplied detail (here the token z9q of the provider message). -/
theorem C6_counterexample :
    (processQueryWithGemini "doc" "q"
        (fun _ => ⟨Except.error "API_KEY invalid: detail z9q", 2⟩)
        (fun _ => none) 0).attemptsMade = 1 ∧
    (processQueryWithGemini "doc" "q"
        (fun _ => ⟨Except.error "API_KEY invalid: detail z9q", 2⟩)
        (fun _ => none) 0).result
      = Except.error "Invalid Gemini API key. Please check your configuration." ∧
    strIncludes "API_KEY invalid: detail z9q" "z9q" = true ∧
    strIncludes "Invalid Gemini API key. Please check your configuration." "z9q" = false :=
  ⟨rfl, rfl, by decide, by decide⟩

/-- C6 (amended): a provider failure not classified as transient overload
is fatal on the first attempt — one attempt, no backoff wait — and is
propagated as an error with the mapped message: the generic case carries
the provider-supplied message verbatim, while the credentials, quota and
safety cases are fixed remapped messages. -/
theorem C6_amended (documentText userQuery : String)
    (provider : Nat → ProviderAttempt) (decodeOf : String → Option JVal)
    (t0 : Int) (m : String)
    (h : (provider 0).outcome = Except.error m)
    (hov : strIncludes m "overloaded" = false) :
    (processQueryWithGemini documentText userQuery provider decodeOf t0).attemptsMade = 1 ∧
    (processQueryWithGemini documentText userQuery provider decodeOf t0).sleeps = [] ∧
    (processQueryWithGemini documentText userQuery provider decodeOf t0).result
      = Except.error (fatalMessage m) ∧
    (strIncludes m "API_KEY" = false → strIncludes m "quota" = false →
      strIncludes m "SAFETY" = false →
      fatalMessage m = "Gemini processing failed: " ++ m) := by
  have e := run_fatal_first (d := documentText) (q := userQuery)
    (f := decodeOf) (t := t0) h hov
  refine ⟨by simp [e], by simp [e], by simp [e], ?_⟩
  intro h1 h2 h3
  simp [fatalMessage, h1, h2, h3]

/-- Witness for C6 (amended) at a concrete content-safety rejection and at
a generic provider failure carrying its detail. -/
theorem C6_witness :
    (processQueryWithGemini "doc" "q"
        (fun _ => ⟨Except.error "blocked due to SAFETY", 2⟩)
        (fun _ => none) 0).attemptsMade = 1 ∧
    (processQueryWithGemini "doc" "q"
        (fun _ => ⟨Except.error "blocked due to SAFETY", 2⟩)
        (fun _ => none) 0).result
      = Except.error (fatalMessage "blocked due to SAFETY") ∧
    fatalMessage "socket hang up" = "Gemini processing failed: " ++ "socket hang up" := by
  have h1 := C6_amended "doc" "q" (fun _ => ⟨Except.error "blocked due to SAFETY", 2⟩)
    (fun _ => none) 0 "blocked due to SAFETY" rfl (by decide)
  have h2 := C6_amended "doc" "q" (fun _ => ⟨Except.error "socket hang up", 2⟩)
    (fun _ => none) 0 "socket hang up" rfl (by decide)
  exact ⟨h1.1, h1.2.2.1, h2.2.2.2 (by decide) (by decide) (by decide)⟩

/-- C7 (failing-input evaluation): with three overloaded attempts of 1 ms
each starting at clock 0, the run ends at clock 4003 (two 2000 ms waits
plus the attempts), yet the degraded result reports a processing time of
1000 — the constant artifact — not the elapsed time. -/
theorem C7_constant_degraded_time :
    (∃ r, (processQueryWithGemini "doc" "q"
        (fun _ => ⟨Except.error "model overloaded", 1⟩)
        (fun _ => none) 0).result = Except.ok r ∧ r.processingTime = 1000) ∧
    (processQueryWithGemini "doc" "q"
        (fun _ => ⟨Except.error "model overloaded", 1⟩)
        (fun _ => none) 0).endTime - 0 = 4003 :=
  ⟨⟨_, rfl, rfl⟩, rfl⟩

/-- C8 (counterexample): when the model replies with a decodable object
whose questions field is an empty array (truthy in JavaScript), the
recommendation generator returns that empty array — zero questions, not
the claimed 1 to 3. -/
theorem C8_counterexample :
    generateRecommendedQuestions "sample document text"
        (fun _ => Except.ok "\x7b\"questions\": []\x7d")
        (fun s => if s = "\x7b\"questions\": []\x7d"
          then some (JVal.jobj [("questions", JVal.jarr [])]) else none)
      = JVal.jarr [] := by
  rfl

/-- C8 (amended): the recommendation generator never propagates an error:
on a provider failure or undecodable output it returns the fixed hardcoded
list of three generic questions, while a decoded object with a truthy
questions field is returned as-is, with no enforcement of the 1-to-3
cardinality. -/
theorem C8_amended (documentText : String)
    (provider : String → Except String String) (decodeOf : String → Option JVal) :
    (∀ e, provider (recommendPrompt documentText) = Except.error e →
      generateRecommendedQuestions documentText provider decodeOf = defaultQuestionsJ) ∧
    (∀ rt, provider (recommendPrompt documentText) = Except.ok rt →
      decodeOf (cleanResponseText rt) = none →
      generateRecommendedQuestions documentText provider decodeOf = defaultQuestionsJ) ∧
    (∀ rt fs v, provider (recommendPrompt documentText) = Except.ok rt →
      decodeOf (cleanResponseText rt) = some (JVal.jobj fs) →
      jLookup fs "questions" = some v → jTruthy v = true →
      generateRecommendedQuestions documentText provider decodeOf = v) ∧
    defaultQuestions.length = 3 := by
  refine ⟨?_, ?_, ?_, rfl⟩
  · intro e he
    simp [generateRecommendedQuestions, he]
  · intro rt h1 h2
    simp [generateRecommendedQuestions, h1, h2]
  · intro rt fs v h1 h2 h3 h4
    simp [generateRecommendedQuestions, h1, h2, jOr, h3, h4]

/-- Witness for C8 (amended): the fallback on a provider error and on
unparseable output, and pass-through of a one-element questions array. -/
theorem C8_witness :
    generateRecommendedQuestions "d" (fun _ => Except.error "boom") (fun _ => none)
      = defaultQuestionsJ ∧
    generateRecommendedQuestions "d" (fun _ => Except.ok "hello") (fun _ => none)
      = defaultQuestionsJ ∧
    generateRecommendedQuestions "d" (fun _ => Except.ok "x")
        (fun _ => some (JVal.jobj [("questions", JVal.jarr [JVal.jstr "Q1"])]))
      = JVal.jarr [JVal.jstr "Q1"] :=
  ⟨(C8_amended "d" (fun _ => Except.error "boom") (fun _ => none)).1 "boom" rfl,
   (C8_amended "d" (fun _ => Except.ok "hello") (fun _ => none)).2.1 "hello" rfl rfl,
   (C8_amended "d" (fun _ => Except.ok "x")
      (fun _ => some (JVal.jobj [("questions", JVal.jarr [JVal.jstr "Q1"])]))).2.2.1
     "x" [("questions", JVal.jarr [JVal.jstr "Q1"])] (JVal.jarr [JVal.jstr "Q1"])
     rfl rfl rfl rfl⟩

/-- C9: when the model output decodes to an object, a confidence field
present but equal to 0 is replaced by the 0.7 default (zero is falsy),
while a canAnswer field equal to false is preserved. -/
theorem C9_confidence_zero_canAnswer_false
    (fs : List (String × JVal)) (rt : String)
    (hc : jLookup fs "confidence" = some (JVal.jnum 0))
    (ha : jLookup fs "canAnswer" = some (JVal.jbool false)) :
    ∃ a, parseStage (some (JVal.jobj fs)) rt = Except.ok a ∧
      a.confidence = some (JVal.jnum (mkRat 7 10)) ∧
      a.canAnswer = some (JVal.jbool false) := by
  refine ⟨_, rfl, ?_, ?_⟩ <;>
    simp [parseStage, normalizeParsed, hc, ha, jOr, jDefault, jTruthy]

/-- Witness for C9 at a concrete decoded object. -/
theorem C9_witness :
    ∃ a, parseStage (some (JVal.jobj
        [("answer", JVal.jstr "No"), ("canAnswer", JVal.jbool false),
         ("confidence", JVal.jnum 0), ("reasoning", JVal.jstr "not stated")])) "raw"
        = Except.ok a ∧
      a.confidence = some (JVal.jnum (mkRat 7 10)) ∧
      a.canAnswer = some (JVal.jbool false) :=
  C9_confidence_zero_canAnswer_false
    [("answer", JVal.jstr "No"), ("canAnswer", JVal.jbool false),
     ("confidence", JVal.jnum 0), ("reasoning", JVal.jstr "not stated")] "raw" rfl rfl

/-- C10: the batch handler applies no per-question validation: every
question of a structurally valid batch — including the empty string or one
shorter than 3 trimmed characters — is forwarded to the provider (one call
per question when the first attempt succeeds) and yields a success-tagged
entry with no per-item error. -/
theorem C10_no_per_item_validation
    (findById : String → Option Document) (docId : String) (doc : Document)
    (qs : List String) (provider : Nat → Nat → ProviderAttempt)
    (txts : Nat → String) (t0 : Int)
    (hid : docId ≠ "") (hdoc : findById docId = some doc)
    (hlo : 1 ≤ qs.length) (hhi : qs.length ≤ 10)
    (hok : ∀ j, ((provider j) 0).outcome = Except.ok (txts j)) :
    ∃ items,
      (handleBatch findById (some docId) (some qs) provider (fun _ => none) t0).response
          = Except.ok items ∧
      (handleBatch findById (some docId) (some qs) provider (fun _ => none) t0).providerCalls
          = qs.length ∧
      ∀ it ∈ items, it.success = true ∧ it.error = none := by
  have hne : qs ≠ [] := by
    intro h
    rw [h] at hlo
    simp at hlo
  have h10 : ¬ 10 < qs.length := by omega
  refine ⟨(batchLoop doc provider (fun _ => none) qs 0 t0).items, ?_, ?_, ?_⟩
  · simp [handleBatch, hid, hne, h10, hdoc]
  · simp [handleBatch, hid, hne, h10, hdoc,
      batchLoop_calls_ok doc provider (fun _ => none) txts hok qs 0 t0]
  · exact batchLoop_all_ok doc provider (fun _ => none) txts hok (fun _ => rfl) qs 0 t0

/-- Witness for C10 at a batch containing the empty question and a
two-character question: both forwarded, both success entries. -/
theorem C10_witness :
    ∃ items,
      (handleBatch (fun _ => some ⟨"a.txt", "content"⟩) (some "d1") (some ["", "ab"])
          (fun _ _ => ⟨Except.ok "It says hello", 2⟩) (fun _ => none) 0).response
          = Except.ok items ∧
      (handleBatch (fun _ => some ⟨"a.txt", "content"⟩) (some "d1") (some ["", "ab"])
          (fun _ _ => ⟨Except.ok "It says hello", 2⟩) (fun _ => none) 0).providerCalls = 2 ∧
      ∀ it ∈ items, it.success = true ∧ it.error = none :=
  C10_no_per_item_validation (fun _ => some ⟨"a.txt", "content"⟩) "d1"
    ⟨"a.txt", "content"⟩ ["", "ab"] (fun _ _ => ⟨Except.ok "It says hello", 2⟩)
    (fun _ => "It says hello") 0 (by decide) rfl (by decide) (by decide) (fun _ => rfl)

end QueryFy
